import Mathlib

/-!
Shallow embedding of the authentication and session-token subsystem of the
finance-tracker backend (`src/src/finance/finance.service.ts`, `AuthService`,
together with the `supabase/migrations/20251003192917_create_auth_tables.sql`
schema that fixes the constraints of the two tables).

Modelling conventions:

* bcrypt is modelled ideally: a hash is a record of the cost factor, the salt
  drawn for that call, and the hashed input.  `bcrypt.hash(s, cost)` draws a
  fresh random salt on every call, so the model threads a salt supply
  (`DB.nextSalt`) through the service and every hashing call consumes one
  fresh salt.  `bcrypt.compare(s, h)` re-hashes `s` under the salt stored in
  `h`, so in the ideal model it succeeds exactly when `s` equals the hashed
  input of `h`.  The stored `VARCHAR` form of a hash is its `render`.
* JWTs are modelled as transparent values: a signed token carries its payload,
  issued-at and expiry; a malformed token or one signed with the wrong secret
  is the `garbage` constructor, which never verifies.  `jwtService.verify`
  fails on garbage and on expiry, matching `jsonwebtoken`.
* The Supabase client is modelled per call-site.  `.single()` succeeds exactly
  when the filtered result has exactly one row.  `users` has a UNIQUE
  constraint on `email` (migration), so an insert of a duplicate email errors.
  `refresh_tokens` has primary key `id` and UNIQUE(token_hash) but no unique
  constraint on `user_id`; `.upsert()` without an `onConflict` target resolves
  conflicts on the primary key only, and inserted rows carry no `id`, so the
  upsert inserts a fresh row (it appends); a token_hash collision would error,
  and the service ignores that error, leaving the table unchanged.
* Each service method is a function `DB → args → DB × Except AuthError α`:
  the state component records the table contents after the call whether or
  not the call threw, matching the fact that thrown exceptions in the service
  do not roll back database writes already performed.
-/

namespace FinanceTracker

/-- Ideal model of a bcrypt hash: cost factor, the random salt drawn for the
hashing call, and the hashed input.  `α` is `String` for passwords and
`Token` for refresh tokens. -/
structure BHash (α : Type) where
  cost : Nat
  salt : Nat
  text : α
deriving DecidableEq, Repr

/-- `bcrypt.hash(s, cost)` with the fresh salt made explicit. -/
def bcryptHash {α : Type} (s : α) (cost : Nat) (salt : Nat) : BHash α :=
  ⟨cost, salt, s⟩

/-- `bcrypt.compare(s, h)`: re-hash `s` under the salt and cost recorded in
`h` and compare; in the ideal model this succeeds iff `s` is the hashed
input. -/
def bcryptCompare {α : Type} [BEq α] (s : α) (h : BHash α) : Bool :=
  s == h.text

/-- The `VARCHAR` form in which a bcrypt hash is stored in the database:
a modular-crypt-format string `$2b$cost$salt$…`. -/
def BHash.render (h : BHash String) : String :=
  "$2b$" ++ toString h.cost ++ "$" ++ toString h.salt ++ "$" ++ h.text

/-- Payload of an access token (`JWTPayload`): subject id, email, first and
last name. -/
structure AccessPayload where
  sub : Nat
  email : String
  firstName : String
  lastName : String
deriving DecidableEq, Repr

/-- A JWT as handed around by the service.  `accessTok payload iat exp` and
`refreshTok sub iat exp` are tokens signed with the process secret
(`refreshTok` carries the claim `type: 'refresh'`); `garbage` stands for any
string that is malformed or not signed with the secret. -/
inductive Token where
  | accessTok : AccessPayload → Nat → Nat → Token
  | refreshTok : Nat → Nat → Nat → Token
  | garbage : String → Token
deriving DecidableEq, Repr

/-- Claims returned by a successful `jwtService.verify`: either an access
payload (whose `type` claim is absent) or a refresh payload
(`type = 'refresh'` with subject `sub`). -/
inductive Decoded where
  | acc : AccessPayload → Decoded
  | refr : Nat → Decoded
deriving DecidableEq, Repr

/-- The `sub` claim of a decoded token. -/
def Decoded.sub : Decoded → Nat
  | .acc p => p.sub
  | .refr s => s

/-- `jwtService.verify(token)` at current time `now`: fails (throws) on a
malformed/badly-signed token and on an expired one, otherwise returns the
decoded claims. -/
def jwtVerifyModel (now : Nat) : Token → Option Decoded
  | .accessTok p _ ex => if now < ex then some (.acc p) else none
  | .refreshTok s _ ex => if now < ex then some (.refr s) else none
  | .garbage _ => none

/-- A row of the `users` table (the columns the auth service reads). -/
structure UserRow where
  id : Nat
  email : String
  password : BHash String
  first_name : String
  last_name : String
deriving DecidableEq, Repr

/-- A row of the `refresh_tokens` table (the columns the auth service reads;
the generated `id` primary key is left implicit — inserted rows never carry
one, so it never causes an upsert conflict). -/
structure RefreshTokenRow where
  user_id : Nat
  token_hash : BHash Token
  expires_at : Nat
deriving DecidableEq, Repr

/-- Database state plus the ambient sources of freshness: the generated-id
supply for `users`, the bcrypt salt supply, and the current clock
(`Date.now()`, in milliseconds). -/
structure DB where
  users : List UserRow
  refresh_tokens : List RefreshTokenRow
  nextUserId : Nat
  nextSalt : Nat
  now : Nat
deriving DecidableEq, Repr

/-- The rows of `users` matching `.eq('email', e)`. -/
def usersWithEmail (db : DB) (e : String) : List UserRow :=
  db.users.filter (fun u => u.email == e)

/-- The rows of `users` matching `.eq('id', i)`. -/
def usersWithId (db : DB) (i : Nat) : List UserRow :=
  db.users.filter (fun u => u.id == i)

/-- `from('users').select(…).eq('email', e).single()` — `.single()` yields a
row exactly when the filter matched exactly one row, and an error otherwise. -/
def usersFindByEmail (db : DB) (e : String) : Option UserRow :=
  match usersWithEmail db e with
  | [u] => some u
  | _ => none

/-- `from('users').select(…).eq('id', i).single()`. -/
def usersFindById (db : DB) (i : Nat) : Option UserRow :=
  match usersWithId db i with
  | [u] => some u
  | _ => none

/-- The storage error message produced by the UNIQUE(email) constraint. -/
def uniqueViolationMsg : String :=
  "duplicate key value violates unique constraint"

/-- `from('users').insert([{…}]).select(…).single()`: the migration puts a
UNIQUE constraint on `email`, so inserting a duplicate email errors and
leaves the table unchanged; otherwise the row is stored under a fresh
generated id and returned. -/
def usersInsert (db : DB) (e : String) (pw : BHash String) (fn ln : String) :
    DB × Except String UserRow :=
  if db.users.any (fun u => u.email == e) then
    (db, .error uniqueViolationMsg)
  else
    let newUser : UserRow := ⟨db.nextUserId, e, pw, fn, ln⟩
    ({ db with users := db.users ++ [newUser], nextUserId := db.nextUserId + 1 },
     .ok newUser)

/-- `from('refresh_tokens').upsert([{user_id, token_hash, expires_at, …}])`:
with no `onConflict` target the conflict resolution is keyed on the primary
key `id`; the inserted row carries no `id`, a fresh one is generated, so no
primary-key conflict ever occurs and the row is inserted (appended).  A
UNIQUE(token_hash) violation makes the statement error; the service never
checks the upsert's error, so in that case the table is simply unchanged. -/
def refreshTokensUpsert (db : DB) (row : RefreshTokenRow) : DB :=
  if db.refresh_tokens.any (fun r => r.token_hash == row.token_hash) then db
  else { db with refresh_tokens := db.refresh_tokens ++ [row] }

/-- `AuthService.saltRounds`: the bcrypt work factor used for passwords. -/
def saltRounds : Nat := 12

/-- `accessTokenExpiresIn = '15m'`, in milliseconds. -/
def accessTokenExpiresInMs : Nat := 15 * 60 * 1000

/-- `refreshTokenExpiresIn = '7d'` (and the stored `expires_at` offset
`7 * 24 * 60 * 60 * 1000`), in milliseconds. -/
def refreshTokenExpiresInMs : Nat := 7 * 24 * 60 * 60 * 1000

/-- The NestJS exceptions thrown by the auth service, with their messages. -/
inductive AuthError where
  | conflictErr : String → AuthError
  | badRequestErr : String → AuthError
  | unauthorizedErr : String → AuthError
deriving DecidableEq, Repr

/-- The public user profile returned by signup/signin (`user: {id, email,
firstName, lastName}`); by construction it has no password field. -/
structure PublicUser where
  id : Nat
  email : String
  firstName : String
  lastName : String
deriving DecidableEq, Repr

/-- `AuthResponseDto`: token pair plus public profile. -/
structure AuthResponse where
  accessToken : Token
  refreshToken : Token
  user : PublicUser
deriving DecidableEq, Repr

/-- Result of `refreshTokens`: `{access, refreshToken}`. -/
structure RefreshResult where
  access : Token
  refreshToken : Token
deriving DecidableEq, Repr

/-- `AuthService.storeRefreshToken(userId, refreshToken)`: bcrypt-hash the
raw token with work factor 8 (consuming a fresh salt) and upsert
`{user_id, token_hash, expires_at: now + 7d}`. -/
def storeRefreshToken (db : DB) (userId : Nat) (tok : Token) : DB :=
  let hashedToken := bcryptHash tok 8 db.nextSalt
  let db1 : DB := { db with nextSalt := db.nextSalt + 1 }
  refreshTokensUpsert db1 ⟨userId, hashedToken, db1.now + refreshTokenExpiresInMs⟩

/-- The rows of `refresh_tokens` matching `.eq('user_id', userId)` and
`.gte('expires_at', now)`. -/
def activeRecords (db : DB) (userId : Nat) : List RefreshTokenRow :=
  db.refresh_tokens.filter (fun r => r.user_id == userId && decide (db.now ≤ r.expires_at))

/-- `AuthService.validateRefreshToken(userId, refreshToken)`: single-row fetch
of the user's non-expired record (`.single()` errors on zero or several
rows, giving `false`), then bcrypt-compare against the stored hash. -/
def validateRefreshToken (db : DB) (userId : Nat) (tok : Token) : Bool :=
  match activeRecords db userId with
  | [r] => bcryptCompare tok r.token_hash
  | _ => false

/-- The hash `revokeRefreshToken` recomputes: `bcrypt.hash(refreshToken, 8)`
with a fresh salt. -/
def revokeHash (db : DB) (tok : Token) : BHash Token :=
  bcryptHash tok 8 db.nextSalt

/-- `AuthService.revokeRefreshToken(refreshToken)`: `jwtService.verify` the
raw token (throwing — `none` — on failure, before anything is hashed or
deleted), re-hash it with a fresh salt, and delete the rows matching
`(user_id = decoded.sub, token_hash = freshHash)`. -/
def revokeRefreshToken (db : DB) (tok : Token) : Option DB :=
  match jwtVerifyModel db.now tok with
  | none => none
  | some d =>
    let h := revokeHash db tok
    let db1 : DB := { db with nextSalt := db.nextSalt + 1 }
    some { db1 with
           refresh_tokens :=
             db1.refresh_tokens.filter
               (fun r => !(r.user_id == d.sub && r.token_hash == h)) }

/-- `SignUpDto`. -/
structure SignUpDto where
  email : String
  password : String
  firstName : String
  lastName : String
deriving DecidableEq, Repr

/-- `SignInDto`. -/
structure SignInDto where
  email : String
  password : String
deriving DecidableEq, Repr

/-- `AuthService.signUp`: hash the password (work factor 12, fresh salt),
check for an existing user with this email (`.single()`), conflict if found;
insert the new user (the UNIQUE(email) constraint is authoritative), bad
request if the insert errors; sign access and refresh tokens; store the
refresh token; return tokens plus public profile. -/
def signUp (db : DB) (dto : SignUpDto) : DB × Except AuthError AuthResponse :=
  let hashedPassword := bcryptHash dto.password saltRounds db.nextSalt
  let db1 : DB := { db with nextSalt := db.nextSalt + 1 }
  match usersFindByEmail db1 dto.email with
  | some _ => (db1, .error (.conflictErr "User with this email already exists"))
  | none =>
    match usersInsert db1 dto.email hashedPassword dto.firstName dto.lastName with
    | (db2, .error m) => (db2, .error (.badRequestErr ("Failed to create user: " ++ m)))
    | (db2, .ok newUser) =>
      let accessToken := Token.accessTok
        ⟨newUser.id, newUser.email, newUser.first_name, newUser.last_name⟩
        db2.now (db2.now + accessTokenExpiresInMs)
      let refreshToken := Token.refreshTok newUser.id db2.now (db2.now + refreshTokenExpiresInMs)
      let db3 := storeRefreshToken db2 newUser.id refreshToken
      (db3, .ok ⟨accessToken, refreshToken,
                 ⟨newUser.id, newUser.email, newUser.first_name, newUser.last_name⟩⟩)

/-- `AuthService.signIn`: look the user up by email (`.single()`); lookup
error or no row → `UnauthorizedException('Invalid credentials')`; bcrypt
password mismatch → the same exception; otherwise sign and store tokens and
return them with the profile. -/
def signIn (db : DB) (dto : SignInDto) : DB × Except AuthError AuthResponse :=
  match usersFindByEmail db dto.email with
  | none => (db, .error (.unauthorizedErr "Invalid credentials"))
  | some user =>
    if bcryptCompare dto.password user.password then
      let accessToken := Token.accessTok
        ⟨user.id, user.email, user.first_name, user.last_name⟩
        db.now (db.now + accessTokenExpiresInMs)
      let refreshToken := Token.refreshTok user.id db.now (db.now + refreshTokenExpiresInMs)
      let db1 := storeRefreshToken db user.id refreshToken
      (db1, .ok ⟨accessToken, refreshToken,
                 ⟨user.id, user.email, user.first_name, user.last_name⟩⟩)
    else (db, .error (.unauthorizedErr "Invalid credentials"))

/-- `AuthService.refreshTokens`: verify the presented token, require its
`type` claim to be `'refresh'`, validate it against the store, re-fetch the
user, sign a new pair, store the new refresh token, revoke the old one.
The surrounding `try/catch` replaces every thrown error by
`UnauthorizedException('Token refresh failed')`; database writes already
performed before a throw are kept (the state component records them). -/
def refreshTokens (db : DB) (tok : Token) : DB × Except AuthError RefreshResult :=
  match jwtVerifyModel db.now tok with
  | none => (db, .error (.unauthorizedErr "Token refresh failed"))
  | some (.acc _) => (db, .error (.unauthorizedErr "Token refresh failed"))
  | some (.refr sub) =>
    if validateRefreshToken db sub tok then
      match usersFindById db sub with
      | none => (db, .error (.unauthorizedErr "Token refresh failed"))
      | some user =>
        let accessToken := Token.accessTok
          ⟨user.id, user.email, user.first_name, user.last_name⟩
          db.now (db.now + accessTokenExpiresInMs)
        let newRefreshToken := Token.refreshTok user.id db.now (db.now + refreshTokenExpiresInMs)
        let db1 := storeRefreshToken db user.id newRefreshToken
        match revokeRefreshToken db1 tok with
        | none => (db1, .error (.unauthorizedErr "Token refresh failed"))
        | some db2 => (db2, .ok ⟨accessToken, newRefreshToken⟩)
    else (db, .error (.unauthorizedErr "Token refresh failed"))

/-- `AuthService.logout`: revoke the token; any throw becomes
`UnauthorizedException('Logout failed')`. -/
def logout (db : DB) (tok : Token) : DB × Except AuthError Unit :=
  match revokeRefreshToken db tok with
  | some db1 => (db1, .ok ())
  | none => (db, .error (.unauthorizedErr "Logout failed"))

/-- Salt-freshness invariant: every stored refresh-token hash was made with a
salt drawn before the current head of the salt supply.  Every record created
by `storeRefreshToken` satisfies this, and all operations preserve it. -/
def saltsFresh (db : DB) : Prop :=
  ∀ r ∈ db.refresh_tokens, r.token_hash.salt < db.nextSalt

/-- The row inserted into `users` by a successful signup. -/
def newRow (db : DB) (dto : SignUpDto) : UserRow :=
  ⟨db.nextUserId, dto.email, bcryptHash dto.password saltRounds db.nextSalt,
   dto.firstName, dto.lastName⟩

/-! Concrete scenario: a fresh database, one signup, and the tokens the
service hands out, used to exercise the flows on explicit inputs.  The clock
starts at 1000 ms and is advanced between calls (each call reads
`Date.now()`, so two calls at different instants see different clocks). -/

/-- An empty database at time 1000 ms. -/
def db0 : DB := ⟨[], [], 1, 0, 1000⟩

/-- A signup request. -/
def dto0 : SignUpDto := ⟨"a@b.com", "Str0ngPass", "A", "B"⟩

/-- The refresh token signup issues at time 1000 for user 1. -/
def tok0 : Token := Token.refreshTok 1 1000 (1000 + refreshTokenExpiresInMs)

/-- The refresh token a refresh call at time 2000 issues for user 1. -/
def tok1 : Token := Token.refreshTok 1 2000 (2000 + refreshTokenExpiresInMs)

/-- The response the signup on the empty database returns. -/
def resp0 : AuthResponse :=
  ⟨Token.accessTok ⟨1, "a@b.com", "A", "B"⟩ 1000 (1000 + accessTokenExpiresInMs),
   tok0, ⟨1, "a@b.com", "A", "B"⟩⟩

/-- The `users` row created by that signup. -/
def userRow0 : UserRow := ⟨1, "a@b.com", ⟨12, 0, "Str0ngPass"⟩, "A", "B"⟩

/-- The `refresh_tokens` row created by that signup. -/
def rtRow0 : RefreshTokenRow := ⟨1, ⟨8, 1, tok0⟩, 1000 + refreshTokenExpiresInMs⟩

/-- The database after the signup, with the clock advanced to 2000 ms. -/
def dbAfterSignUp : DB := { (signUp db0 dto0).1 with now := 2000 }

/-- The database after refreshing `tok0`, with the clock advanced to 3000 ms. -/
def dbAfterRefresh : DB := { (refreshTokens dbAfterSignUp tok0).1 with now := 3000 }

/-- A one-user-one-record database to exercise `revokeRefreshToken` directly:
the stored hash was drawn with salt 0, the supply head is 1. -/
def dbW : DB := ⟨[], [⟨1, ⟨8, 0, tok0⟩, 1000 + refreshTokenExpiresInMs⟩], 2, 1, 1000⟩

/-- The refresh-token row `storeRefreshToken db0 1 tok0` creates. -/
def rtW0 : RefreshTokenRow := ⟨1, ⟨8, 0, tok0⟩, 1000 + refreshTokenExpiresInMs⟩

/-- A signin request with the credentials of `dto0`. -/
def signInDto0 : SignInDto := ⟨"a@b.com", "Str0ngPass"⟩

/-- What `revokeRefreshToken dbW tok0` returns: the salt supply advanced, the
table untouched. -/
def dbWrevoked : DB := ⟨[], [⟨1, ⟨8, 0, tok0⟩, 1000 + refreshTokenExpiresInMs⟩], 2, 2, 1000⟩

/-! Helper lemmas about the operations. -/

/-- `storeRefreshToken` does not read or advance the clock. -/
theorem storeRefreshToken_now (db : DB) (u : Nat) (t : Token) :
    (storeRefreshToken db u t).now = db.now := by
  simp only [storeRefreshToken, refreshTokensUpsert]
  split <;> rfl

/-- `storeRefreshToken` does not touch the `users` table. -/
theorem storeRefreshToken_users (db : DB) (u : Nat) (t : Token) :
    (storeRefreshToken db u t).users = db.users := by
  simp only [storeRefreshToken, refreshTokensUpsert]
  split <;> rfl

/-- The stored form of a bcrypt hash is strictly longer than its input. -/
theorem render_length (h : BHash String) : h.text.length < h.render.length := by
  simp only [BHash.render, String.length_append]
  have h1 : ("$2b$" : String).length = 4 := rfl
  have h2 : ("$" : String).length = 1 := rfl
  omega

/-- The stored form of a bcrypt hash never equals the hashed plaintext. -/
theorem render_ne_text (h : BHash String) : h.render ≠ h.text := by
  intro he
  have hl := render_length h
  rw [he] at hl
  omega

/-- Dropping or bumping the salt supply does not change what the user lookup
sees. -/
theorem usersFindByEmail_saltBump (db : DB) (n : Nat) (e : String) :
    usersFindByEmail { db with nextSalt := n } e = usersFindByEmail db e := rfl

/-- Characterisation of a successful signup: the email was absent, and the
call's result is the new-user branch computed from the inputs. -/
theorem signUp_ok_case (db : DB) (dto : SignUpDto) (resp : AuthResponse)
    (h : (signUp db dto).2 = .ok resp) :
    db.users.any (fun u => u.email == dto.email) = false ∧
    signUp db dto =
      (storeRefreshToken
         { db with users := db.users ++ [newRow db dto],
                   nextUserId := db.nextUserId + 1,
                   nextSalt := db.nextSalt + 1 }
         db.nextUserId (Token.refreshTok db.nextUserId db.now (db.now + refreshTokenExpiresInMs)),
       .ok ⟨Token.accessTok ⟨db.nextUserId, dto.email, dto.firstName, dto.lastName⟩
              db.now (db.now + accessTokenExpiresInMs),
            Token.refreshTok db.nextUserId db.now (db.now + refreshTokenExpiresInMs),
            ⟨db.nextUserId, dto.email, dto.firstName, dto.lastName⟩⟩) := by
  simp only [signUp] at h ⊢
  cases hfind : usersFindByEmail { db with nextSalt := db.nextSalt + 1 } dto.email with
  | some u => rw [hfind] at h; exact absurd h (by simp)
  | none =>
    rw [hfind] at h
    simp only [usersInsert] at h ⊢
    cases hany : db.users.any (fun u => u.email == dto.email) with
    | true => rw [hany] at h; exact absurd h (by simp)
    | false => rw [hany] at h; exact ⟨rfl, rfl⟩

/-! The claims. -/

/-- C4: for every raw refresh token whose stored record was created by
`storeRefreshToken` (captured by the salt-freshness invariant `saltsFresh`),
`revokeRefreshToken` recomputes a bcrypt hash of the token under a freshly
drawn salt, which differs from every stored `token_hash`, so the delete
filtered by `(user_id, token_hash)` matches zero rows and the
`refresh_tokens` table is unchanged. -/
theorem revoke_noop_on_fresh_store (db : DB) (tok : Token) (db' : DB)
    (hfresh : saltsFresh db) (h : revokeRefreshToken db tok = some db') :
    db'.refresh_tokens = db.refresh_tokens := by
  simp only [revokeRefreshToken] at h
  cases hv : jwtVerifyModel db.now tok with
  | none => rw [hv] at h; exact absurd h (by simp)
  | some d =>
    rw [hv] at h
    simp only [Option.some.injEq] at h
    subst h
    apply List.filter_eq_self.mpr
    intro r hr
    have hs := hfresh r hr
    have hne : r.token_hash ≠ revokeHash db tok := by
      intro he
      rw [he] at hs
      simp only [revokeHash, bcryptHash] at hs
      omega
    simp [hne]

theorem revoke_noop_on_fresh_store_witness :
    dbWrevoked.refresh_tokens = dbW.refresh_tokens :=
  revoke_noop_on_fresh_store dbW tok0 dbWrevoked (by unfold saltsFresh; decide) rfl

/-- C5: `signIn` with a nonexistent email (the single-row lookup errs) and
`signIn` with an existing email but a wrong password both fail with the same
`UnauthorizedException` and the same message `'Invalid credentials'`; the
result value is identical in both cases, so nothing distinguishes the two
causes. -/
theorem signin_error_indistinguishable (db : DB) (dto : SignInDto)
    (h : usersFindByEmail db dto.email = none ∨
         ∃ u, usersFindByEmail db dto.email = some u ∧
              bcryptCompare dto.password u.password = false) :
    (signIn db dto).2 = .error (.unauthorizedErr "Invalid credentials") := by
  simp only [signIn]
  rcases h with h | ⟨u, hu, hc⟩
  · rw [h]
  · rw [hu]
    simp [hc]

theorem signin_error_indistinguishable_witness :
    (signIn dbAfterSignUp ⟨"x@y.com", "pw"⟩).2 =
      .error (.unauthorizedErr "Invalid credentials")
    ∧ (signIn dbAfterSignUp ⟨"a@b.com", "wrongpass"⟩).2 =
      .error (.unauthorizedErr "Invalid credentials") :=
  ⟨signin_error_indistinguishable dbAfterSignUp ⟨"x@y.com", "pw"⟩ (Or.inl (by decide)),
   signin_error_indistinguishable dbAfterSignUp ⟨"a@b.com", "wrongpass"⟩
     (Or.inr ⟨userRow0, by decide, by decide⟩)⟩

/-- C9: `validateRefreshToken` returns true exactly when the store holds a
single non-expired record for the user and its hash matches the presented
token; whenever the number of non-expired records for the user is not one
(zero, or several — the `.single()` fetch errors), it returns false, even if
one of the stored hashes matches. -/
theorem validate_requires_single_row (db : DB) (uid : Nat) (tok : Token) :
    (validateRefreshToken db uid tok = true ↔
      ∃ r, activeRecords db uid = [r] ∧ bcryptCompare tok r.token_hash = true)
    ∧ ((activeRecords db uid).length ≠ 1 → validateRefreshToken db uid tok = false) := by
  unfold validateRefreshToken
  cases har : activeRecords db uid with
  | nil => simp
  | cons a l =>
    cases l with
    | nil => simp
    | cons b l2 => simp

theorem validate_requires_single_row_witness :
    validateRefreshToken dbAfterSignUp 1 tok0 = true :=
  (validate_requires_single_row dbAfterSignUp 1 tok0).1.mpr ⟨rtRow0, by decide, by decide⟩

/-- C10: passwords are hashed by `signUp` with bcrypt work factor
`saltRounds = 12`; every refresh-token hash the store writes, and the hash
`revokeRefreshToken` recomputes, use work factor 8. -/
theorem bcrypt_work_factors :
    saltRounds = 12
    ∧ (∀ db : DB, ∀ uid : Nat, ∀ tok : Token,
        ∀ r ∈ (storeRefreshToken db uid tok).refresh_tokens,
          r ∈ db.refresh_tokens ∨ r.token_hash.cost = 8)
    ∧ (∀ db : DB, ∀ tok : Token, (revokeHash db tok).cost = 8)
    ∧ (∀ db : DB, ∀ dto : SignUpDto, ∀ resp : AuthResponse,
        (signUp db dto).2 = .ok resp →
        ∀ u ∈ (signUp db dto).1.users, u ∈ db.users ∨ u.password.cost = 12) := by
  refine ⟨rfl, ?_, fun db tok => rfl, ?_⟩
  · intro db uid tok r hr
    simp only [storeRefreshToken, refreshTokensUpsert] at hr
    split at hr
    · exact Or.inl hr
    · rcases List.mem_append.mp hr with h | h
      · exact Or.inl h
      · rcases List.mem_singleton.mp h with rfl
        exact Or.inr rfl
  · intro db dto resp h u hu
    obtain ⟨hany, heq⟩ := signUp_ok_case db dto resp h
    rw [heq] at hu
    simp only at hu
    rw [storeRefreshToken_users] at hu
    simp only at hu
    rcases List.mem_append.mp hu with h1 | h1
    · exact Or.inl h1
    · rcases List.mem_singleton.mp h1 with rfl
      exact Or.inr rfl

theorem bcrypt_work_factors_witness :
    (rtW0 ∈ db0.refresh_tokens ∨ rtW0.token_hash.cost = 8)
    ∧ (userRow0 ∈ db0.users ∨ userRow0.password.cost = 12) :=
  ⟨bcrypt_work_factors.2.1 db0 1 tok0 rtW0 (by decide),
   bcrypt_work_factors.2.2.2 db0 dto0 resp0 rfl userRow0 (by decide)⟩

/-- C6: for every valid (successful) signup, the returned access token's
claims are the submitted — not hashed — email, first and last name; the
`users` table contains exactly one row with that email; the stored password
hash differs from the plaintext password; and the returned profile is
exactly `{id, email, firstName, lastName}` (the `PublicUser` shape has no
password field, so the hash is never included). -/
theorem signup_success_postcondition (db : DB) (dto : SignUpDto) (resp : AuthResponse)
    (h : (signUp db dto).2 = .ok resp) :
    resp.accessToken = Token.accessTok ⟨db.nextUserId, dto.email, dto.firstName, dto.lastName⟩
        db.now (db.now + accessTokenExpiresInMs)
    ∧ (usersWithEmail (signUp db dto).1 dto.email).length = 1
    ∧ (∀ u ∈ (signUp db dto).1.users, u.email = dto.email → u.password.render ≠ dto.password)
    ∧ resp.user = ⟨db.nextUserId, dto.email, dto.firstName, dto.lastName⟩ := by
  obtain ⟨hany, heq⟩ := signUp_ok_case db dto resp h
  rw [heq] at h
  simp only [Except.ok.injEq] at h
  subst h
  have husers : (signUp db dto).1.users = db.users ++ [newRow db dto] := by
    rw [heq]
    dsimp only
    rw [storeRefreshToken_users]
  have hnil : db.users.filter (fun u => u.email == dto.email) = [] :=
    List.filter_eq_nil_iff.mpr (List.any_eq_false.mp hany)
  refine ⟨rfl, ?_, ?_, rfl⟩
  · unfold usersWithEmail
    rw [husers, List.filter_append, hnil]
    simp [newRow]
  · intro u hu hmail
    rw [husers] at hu
    rcases List.mem_append.mp hu with h1 | h1
    · have := List.any_eq_false.mp hany u h1
      rw [hmail] at this
      simp at this
    · rcases List.mem_singleton.mp h1 with rfl
      exact render_ne_text _

theorem signup_success_postcondition_witness :
    resp0.accessToken = Token.accessTok ⟨1, "a@b.com", "A", "B"⟩ 1000 (1000 + accessTokenExpiresInMs)
    ∧ (usersWithEmail (signUp db0 dto0).1 "a@b.com").length = 1
    ∧ userRow0.password.render ≠ "Str0ngPass"
    ∧ resp0.user = ⟨1, "a@b.com", "A", "B"⟩ :=
  ⟨(signup_success_postcondition db0 dto0 resp0 rfl).1,
   (signup_success_postcondition db0 dto0 resp0 rfl).2.1,
   (signup_success_postcondition db0 dto0 resp0 rfl).2.2.1 userRow0 (by decide) rfl,
   (signup_success_postcondition db0 dto0 resp0 rfl).2.2.2⟩

/-- C7: starting from a store holding exactly one `users` row for the email
(a signup for it already succeeded), a second `signUp` with the same email
fails with `ConflictException('User with this email already exists')` and
leaves both tables unchanged, so the store still holds exactly that one
row. -/
theorem duplicate_signup_atomic (db : DB) (dto : SignUpDto) (u : UserRow)
    (h : usersWithEmail db dto.email = [u]) :
    (signUp db dto).2 = .error (.conflictErr "User with this email already exists")
    ∧ (signUp db dto).1.users = db.users
    ∧ (signUp db dto).1.refresh_tokens = db.refresh_tokens := by
  simp only [signUp]
  have hfind : usersFindByEmail { db with nextSalt := db.nextSalt + 1 } dto.email = some u := by
    rw [usersFindByEmail_saltBump]
    unfold usersFindByEmail
    rw [h]
  rw [hfind]
  exact ⟨rfl, rfl, rfl⟩

theorem duplicate_signup_atomic_witness :
    (signUp dbAfterSignUp dto0).2 = .error (.conflictErr "User with this email already exists")
    ∧ (signUp dbAfterSignUp dto0).1.users = dbAfterSignUp.users
    ∧ (signUp dbAfterSignUp dto0).1.refresh_tokens = dbAfterSignUp.refresh_tokens :=
  duplicate_signup_atomic dbAfterSignUp dto0 userRow0 (by decide)

/-- C8: `refreshTokens` fails with the single outward error
`UnauthorizedException('Token refresh failed')` whenever the presented token
is malformed / badly signed / expired (`jwtService.verify` fails) or its
decoded `type` claim is not `'refresh'`; moreover every failure of the whole
flow, whatever its internal cause, carries exactly that one error and leaves
the database unchanged — no partial-success state is exposed. -/
theorem refresh_failure_collapses (db : DB) (tok : Token) :
    ((jwtVerifyModel db.now tok = none ∨
        (∃ p, jwtVerifyModel db.now tok = some (Decoded.acc p))) →
      (refreshTokens db tok).2 = .error (.unauthorizedErr "Token refresh failed"))
    ∧ (∀ e, (refreshTokens db tok).2 = .error e →
        e = .unauthorizedErr "Token refresh failed" ∧ (refreshTokens db tok).1 = db) := by
  constructor
  · intro hcause
    simp only [refreshTokens]
    rcases hcause with hnone | ⟨p, hacc⟩
    · rw [hnone]
    · rw [hacc]
  · intro e he
    simp only [refreshTokens] at he ⊢
    cases hv : jwtVerifyModel db.now tok with
    | none =>
      rw [hv] at he
      exact ⟨(Except.error.inj he).symm, rfl⟩
    | some d =>
      cases d with
      | acc p =>
        rw [hv] at he
        exact ⟨(Except.error.inj he).symm, rfl⟩
      | refr sub =>
        rw [hv] at he
        dsimp only at he ⊢
        by_cases hval : validateRefreshToken db sub tok = true
        · rw [if_pos hval] at he
          rw [if_pos hval]
          cases hu : usersFindById db sub with
          | none =>
            rw [hu] at he
            exact ⟨(Except.error.inj he).symm, rfl⟩
          | some user =>
            rw [hu] at he
            dsimp only at he
            cases hr : revokeRefreshToken
                (storeRefreshToken db user.id
                  (Token.refreshTok user.id db.now (db.now + refreshTokenExpiresInMs))) tok with
            | some db2 =>
              rw [hr] at he
              exact absurd he (by simp)
            | none =>
              exfalso
              simp only [revokeRefreshToken] at hr
              rw [storeRefreshToken_now, hv] at hr
              exact absurd hr (by simp)
        · rw [if_neg hval] at he
          rw [if_neg hval]
          exact ⟨(Except.error.inj he).symm, rfl⟩

theorem refresh_failure_collapses_witness :
    (refreshTokens db0 (Token.garbage "not-a-jwt")).2 =
      .error (.unauthorizedErr "Token refresh failed") :=
  (refresh_failure_collapses db0 (Token.garbage "not-a-jwt")).1 (Or.inl rfl)

/-- C1: the claim fails on the code.  After the signup and a successful
`refreshTokens(tok0)` (which returned the fresh token `tok1`), a second
refresh with the old token does fail — but a refresh with the NEW token
`tok1` fails too, with the same error: the store kept both hashed records
(the upsert appended, and revoke's freshly-salted hash matched nothing), so
the single-row validation errors for every token of that user. -/
theorem refresh_rotation_broken :
    (signUp db0 dto0).2 = .ok resp0
    ∧ (refreshTokens dbAfterSignUp tok0).2 =
        .ok ⟨Token.accessTok ⟨1, "a@b.com", "A", "B"⟩ 2000 (2000 + accessTokenExpiresInMs), tok1⟩
    ∧ (refreshTokens dbAfterRefresh tok0).2 = .error (.unauthorizedErr "Token refresh failed")
    ∧ (refreshTokens dbAfterRefresh tok1).2 = .error (.unauthorizedErr "Token refresh failed") :=
  ⟨rfl, rfl, rfl, rfl⟩

/-- C2: the claim fails on the code.  `logout(tok0)` completes without error
but deletes nothing (the recomputed bcrypt hash has a fresh salt and matches
no stored `token_hash`), and a subsequent `refreshTokens(tok0)` SUCCEEDS
instead of failing. -/
theorem logout_does_not_invalidate :
    (logout dbAfterSignUp tok0).2 = .ok ()
    ∧ (logout dbAfterSignUp tok0).1.refresh_tokens = dbAfterSignUp.refresh_tokens
    ∧ (refreshTokens (logout dbAfterSignUp tok0).1 tok0).2 =
        .ok ⟨Token.accessTok ⟨1, "a@b.com", "A", "B"⟩ 2000 (2000 + accessTokenExpiresInMs), tok1⟩ :=
  ⟨rfl, rfl, rfl⟩

/-- C3: the claim fails on the code.  After a signup and one further signin
for the same user, the `refresh_tokens` table holds TWO records for that
user id: the `.upsert` call has no conflict target on `user_id` (and the
table has no unique constraint on it), so storing a new token appends
instead of overwriting. -/
theorem signin_appends_second_record :
    (signIn dbAfterSignUp signInDto0).2 =
      .ok ⟨Token.accessTok ⟨1, "a@b.com", "A", "B"⟩ 2000 (2000 + accessTokenExpiresInMs), tok1,
           ⟨1, "a@b.com", "A", "B"⟩⟩
    ∧ ((signIn dbAfterSignUp signInDto0).1.refresh_tokens.filter
        (fun r => r.user_id == 1)).length = 2 :=
  ⟨rfl, rfl⟩

end FinanceTracker
